import Mathlib

/-!
Verification of the "verksamhetscykel" circular year-wheel engine.

The definitions below are shallow embeddings of the JavaScript source:
selection state and its transitions (`js/state.js`), the category facet
filter (`js/state.js`), the period-to-week computation and highlight
projection (`js/main.js`, `js/state.js`), the week count
(`js/rings.js`, `js/main.js`), the ring-boundary radius for "line"
placement (`js/events.js`, `js/config.js`), label distribution and the
connector elbow (`js/events.js`), and the carousel navigation
(`js/events.js`).

Numeric conventions: exact geometry (radii, label positions) is embedded
over `ℚ`, real-valued trigonometric geometry (the connector elbow) over
`ℝ`; indices over `ℕ`; the carousel phase over `ℤ` with `Int.tmod`
matching the JavaScript `%` operator.
-/

namespace Verksamhetscykel

/-- Selection axes, the possible values of `state.selectionMode`
(`null` is modelled by `Option`). -/
inductive SelectionMode where
  | month
  | ring
  | period
deriving DecidableEq, Repr

/-- The three category facet filters (`state.segmentFilters`). -/
structure SegmentFilters where
  verksamhet : Bool
  ekonomi : Bool
  kvalitet : Bool
deriving DecidableEq, Repr

/-- Application selection state, from `createState` in `js/state.js`.
Timer bookkeeping (`hoverCycleTimeouts`, `currentHoverPhase`) is
real-time machinery and is not part of the selection data modelled
here. -/
structure AppState where
  segmentFilters : SegmentFilters
  clickedMonths : Finset ℕ
  hoveredMonth : Option ℕ
  clickedRings : Finset ℕ
  hoveredRing : Option ℕ
  clickedPeriods : Finset ℕ
  hoveredPeriod : Option ℕ
  hoveredEvent : Option String
  clickedEvent : Option String
  clickedEventPhase : ℤ
  selectionMode : Option SelectionMode
deriving DecidableEq

/-- Initial state from `createState` (`js/state.js`): every click-set
empty, every hovered slot and the clicked event `null`, phase `0`,
`selectionMode = null`. -/
def createState (filters : SegmentFilters) : AppState where
  segmentFilters := filters
  clickedMonths := ∅
  hoveredMonth := none
  clickedRings := ∅
  hoveredRing := none
  clickedPeriods := ∅
  hoveredPeriod := none
  hoveredEvent := none
  clickedEvent := none
  clickedEventPhase := 0
  selectionMode := none

/-- `resetSelections` (`js/state.js`): clears the three click-sets, the
mode, the clicked event and its phase. -/
def resetSelections (s : AppState) : AppState :=
  { s with
    clickedMonths := ∅
    clickedRings := ∅
    clickedPeriods := ∅
    selectionMode := none
    clickedEvent := none
    clickedEventPhase := 0 }

/-- Membership toggle used by all three click-toggles: `delete` when
present, `add` when absent. -/
def toggleMember (i : ℕ) (s : Finset ℕ) : Finset ℕ :=
  if i ∈ s then s.erase i else insert i s

/-- `toggleMonth` (`js/state.js`): clear the other two click-sets, set
mode to `month`, toggle membership, and revert mode to `null` when the
set ends up empty. -/
def toggleMonth (s : AppState) (monthIndex : ℕ) : AppState :=
  let s1 := { s with
    clickedRings := ∅
    clickedPeriods := ∅
    selectionMode := some SelectionMode.month
    clickedMonths := toggleMember monthIndex s.clickedMonths }
  if s1.clickedMonths = ∅ then { s1 with selectionMode := none } else s1

/-- `toggleRing` (`js/state.js`): clear the other two click-sets, set
mode to `ring`, toggle membership, and revert mode to `null` when the
set ends up empty. -/
def toggleRing (s : AppState) (ringIndex : ℕ) : AppState :=
  let s1 := { s with
    clickedMonths := ∅
    clickedPeriods := ∅
    selectionMode := some SelectionMode.ring
    clickedRings := toggleMember ringIndex s.clickedRings }
  if s1.clickedRings = ∅ then { s1 with selectionMode := none } else s1

/-- `togglePeriod` (`js/state.js`): clear the other two click-sets, set
mode to `period`, toggle membership, and revert mode to `null` when the
set ends up empty. -/
def togglePeriod (s : AppState) (periodIndex : ℕ) : AppState :=
  let s1 := { s with
    clickedMonths := ∅
    clickedRings := ∅
    selectionMode := some SelectionMode.period
    clickedPeriods := toggleMember periodIndex s.clickedPeriods }
  if s1.clickedPeriods = ∅ then { s1 with selectionMode := none } else s1

/-- One user selection operation of the click-toggle family, plus the
global reset. -/
inductive SelOp where
  | month (i : ℕ)
  | ring (i : ℕ)
  | period (i : ℕ)
  | reset
deriving DecidableEq, Repr

/-- Apply a single selection operation to the state. -/
def applySelOp (s : AppState) : SelOp → AppState
  | SelOp.month i => toggleMonth s i
  | SelOp.ring i => toggleRing s i
  | SelOp.period i => togglePeriod s i
  | SelOp.reset => resetSelections s

/-- Apply a sequence of selection operations, left to right. -/
def applySelOps (s : AppState) (ops : List SelOp) : AppState :=
  ops.foldl applySelOp s

/-- The representation invariant the state object maintains only by
discipline: at most one click-set is non-empty, `selectionMode` is
`null` exactly when all three are empty, and a non-null mode names the
axis of the unique non-empty set. -/
def SelectionInvariant (s : AppState) : Prop :=
  ((s.clickedMonths ≠ ∅ → s.clickedRings = ∅ ∧ s.clickedPeriods = ∅) ∧
   (s.clickedRings ≠ ∅ → s.clickedMonths = ∅ ∧ s.clickedPeriods = ∅) ∧
   (s.clickedPeriods ≠ ∅ → s.clickedMonths = ∅ ∧ s.clickedRings = ∅)) ∧
  (s.selectionMode = none ↔
    (s.clickedMonths = ∅ ∧ s.clickedRings = ∅ ∧ s.clickedPeriods = ∅)) ∧
  (s.selectionMode = some SelectionMode.month → s.clickedMonths ≠ ∅) ∧
  (s.selectionMode = some SelectionMode.ring → s.clickedRings ≠ ∅) ∧
  (s.selectionMode = some SelectionMode.period → s.clickedPeriods ≠ ∅)

/-- An event record restricted to the fields the category facet filter
reads: identifier and the three optional boolean facet flags
(`ev.verksamhet`, `ev.ekonomi`, `ev.kvalitet`); `none` models an absent
flag. -/
structure FacetEvent where
  id : String
  verksamhet : Option Bool
  ekonomi : Option Bool
  kvalitet : Option Bool
deriving DecidableEq

/-- `getFilteredEvents` (`js/state.js`): keep an event when some enabled
facet filter matches a flag that is strictly `true` (the source compares
with `=== true`). -/
def getFilteredEvents (state : AppState) (allEvents : List FacetEvent) :
    List FacetEvent :=
  let f := state.segmentFilters
  allEvents.filter fun ev =>
    (f.verksamhet && (ev.verksamhet == some true)) ||
    (f.ekonomi && (ev.ekonomi == some true)) ||
    (f.kvalitet && (ev.kvalitet == some true))

/-- The week count used by `renderWeekRing` (`js/rings.js`) and
`getActiveWeeksFromPeriods` (`js/main.js`): both hard-code
`(year === 2026) ? 53 : 52`. -/
def totalWeeksInYear (year : ℤ) : ℕ :=
  if year = 2026 then 53 else 52

/-- Gregorian leap-year test. -/
def isLeapYear (y : ℤ) : Bool :=
  (y % 4 == 0 && y % 100 != 0) || (y % 400 == 0)

/-- Day of week of January 1 of year `y` by the Gauss formula,
`0 = Sunday, …, 6 = Saturday`. -/
def jan1DayOfWeek (y : ℤ) : ℤ :=
  (1 + 5 * ((y - 1) % 4) + 4 * ((y - 1) % 100) + 6 * ((y - 1) % 400)) % 7

/-- Modelled from the spec: a year spans 53 ISO weeks iff its January 1
is a Thursday, or it is a leap year whose January 1 is a Wednesday.
This is the general criterion the claim compares the hard-coded week
count against. -/
def spansFiftyThreeIsoWeeks (y : ℤ) : Bool :=
  jan1DayOfWeek y == 4 || (isLeapYear y && jan1DayOfWeek y == 3)

/-- `getActiveWeeksFromPeriods` (`js/main.js`): union over the requested
period indices of the weeks `1 .. totalWeeks` lying in the half-open
divider interval, with wraparound when the end divider is at most the
start divider. Out-of-range divider indices contribute no weeks, as the
source comparisons against `undefined` are all false. -/
def getActiveWeeksFromPeriods (activePeriodIndices : Finset ℕ)
    (year : ℤ) (periodDividerWeeks : List ℕ) : Finset ℕ :=
  let totalWeeks := totalWeeksInYear year
  let numPeriods := periodDividerWeeks.length
  activePeriodIndices.biUnion fun idx =>
    match periodDividerWeeks.get? idx,
        periodDividerWeeks.get? ((idx + 1) % numPeriods) with
    | some sw, some ew =>
      (Finset.Icc 1 totalWeeks).filter fun w =>
        if ew ≤ sw then (w ≥ sw ∨ w < ew) else (w ≥ sw ∧ w < ew)
    | _, _ => ∅

/-- Derived activation sets, from `getActiveSets` (`js/state.js`):
clicked set plus the hovered index, with the four emptiness flags. -/
structure ActiveSets where
  activeMonths : Finset ℕ
  activeRings : Finset ℕ
  activePeriods : Finset ℕ
  hasMonthActive : Bool
  hasRingActive : Bool
  hasPeriodActive : Bool
  hasAnyActive : Bool
deriving DecidableEq

/-- Add the hovered index (when present) to a clicked set. -/
def addHovered (clicked : Finset ℕ) (hovered : Option ℕ) : Finset ℕ :=
  match hovered with
  | some h => insert h clicked
  | none => clicked

/-- `getActiveSets` (`js/state.js`). -/
def getActiveSets (s : AppState) : ActiveSets :=
  let activeMonths := addHovered s.clickedMonths s.hoveredMonth
  let activeRings := addHovered s.clickedRings s.hoveredRing
  let activePeriods := addHovered s.clickedPeriods s.hoveredPeriod
  { activeMonths := activeMonths
    activeRings := activeRings
    activePeriods := activePeriods
    hasMonthActive := decide (0 < activeMonths.card)
    hasRingActive := decide (0 < activeRings.card)
    hasPeriodActive := decide (0 < activePeriods.card)
    hasAnyActive := decide (0 < activeMonths.card) ||
      decide (0 < activeRings.card) || decide (0 < activePeriods.card) }

/-- Ring index-to-name table `RING_NAMES` (`js/config.js`). -/
def RING_NAMES : List String :=
  ["langtidsplanering", "planering", "genomforande_och_uppfoljning",
   "uppfoljning_och_analys"]

/-- Ring name-to-index table `RING_MAP` (`js/config.js`). -/
def RING_MAP (s : String) : Option ℕ :=
  if s = "langtidsplanering" then some 0
  else if s = "planering" then some 1
  else if s = "genomforande_och_uppfoljning" then some 2
  else if s = "uppfoljning_och_analys" then some 3
  else if s = "manad" then some 4
  else none

/-- Month-arc activity in `refreshHighlights` (`js/main.js`). -/
def monthArcIsActive (A : ActiveSets) (m : ℕ) : Bool :=
  A.hasMonthActive && decide (m ∈ A.activeMonths)

/-- Month-arc dimming in `refreshHighlights` (`js/main.js`):
`hasAnyActive && !isActive && !hasRingActive && !hasPeriodActive`. -/
def monthArcIsDimmed (A : ActiveSets) (m : ℕ) : Bool :=
  A.hasAnyActive && !(monthArcIsActive A m) &&
    !A.hasRingActive && !A.hasPeriodActive

/-- Month-label activity in `refreshHighlights` (`js/main.js`), the same
formula as for the month arcs. -/
def monthLabelIsActive (A : ActiveSets) (m : ℕ) : Bool :=
  A.hasMonthActive && decide (m ∈ A.activeMonths)

/-- Month-label dimming in `refreshHighlights` (`js/main.js`). -/
def monthLabelIsDimmed (A : ActiveSets) (m : ℕ) : Bool :=
  A.hasAnyActive && !(monthLabelIsActive A m) &&
    !A.hasRingActive && !A.hasPeriodActive

/-- Ring-segment activity in `refreshHighlights` (`js/main.js`): the
ring axis takes priority, then the month axis. -/
def ringSegmentIsActive (A : ActiveSets) (m r : ℕ) : Bool :=
  if A.hasRingActive then decide (r ∈ A.activeRings)
  else if A.hasMonthActive then decide (m ∈ A.activeMonths)
  else false

/-- Ring-segment dimming in `refreshHighlights` (`js/main.js`):
`hasAnyActive && !isActive`, with no period-axis exception. -/
def ringSegmentIsDimmed (A : ActiveSets) (m r : ℕ) : Bool :=
  A.hasAnyActive && !(ringSegmentIsActive A m r)

/-- Whether an active ring index names one of the rings of an event, as
in the marker loop of `refreshHighlights`: `RING_NAMES[ringIdx]`
compared against `ev.ring` and `ev.ring_2`. -/
def ringNameMatches (ringIdx : ℕ) (ring : String)
    (ring2 : Option String) : Bool :=
  match RING_NAMES.get? ringIdx with
  | some name => ring == name || ring2 == some name
  | none => false

/-- Event-marker activity in `refreshHighlights` (`js/main.js`) for a
marker whose event record was found: ring axis first (name match on
either ring field), then month axis, then the period axis through the
active week set. -/
def eventMarkerIsActive (A : ActiveSets) (activeWeeks : Finset ℕ)
    (m : ℕ) (ring : String) (ring2 : Option String) (week : ℕ) : Bool :=
  if A.hasRingActive then
    decide (∃ ringIdx ∈ A.activeRings, ringNameMatches ringIdx ring ring2)
  else if A.hasMonthActive then decide (m ∈ A.activeMonths)
  else if A.hasPeriodActive then decide (week ∈ activeWeeks)
  else false

/-- Event-marker dimming in `refreshHighlights` (`js/main.js`):
`hasAnyActive && !isActive`. -/
def eventMarkerIsDimmed (A : ActiveSets) (activeWeeks : Finset ℕ)
    (m : ℕ) (ring : String) (ring2 : Option String) (week : ℕ) : Bool :=
  A.hasAnyActive && !(eventMarkerIsActive A activeWeeks m ring ring2 week)

/-- Period-segment activity in `refreshHighlights` (`js/main.js`). -/
def periodSegmentIsActive (A : ActiveSets) (i : ℕ) : Bool :=
  decide (i ∈ A.activePeriods)

/-- Period-segment dimming in `refreshHighlights` (`js/main.js`):
`hasAnyActive && !isActive && !hasMonthActive && !hasRingActive`. -/
def periodSegmentIsDimmed (A : ActiveSets) (i : ℕ) : Bool :=
  A.hasAnyActive && !(periodSegmentIsActive A i) &&
    !A.hasMonthActive && !A.hasRingActive

/-- A ring reference as stored on an event record: the source
dispatches on `typeof ev.ring === 'string'`, so a ring field is either
a name or already a numeric index. -/
inductive RingRef where
  | name (s : String)
  | idx (n : ℕ)
deriving DecidableEq

/-- `calculateLabelPositions` (`js/events.js`): primary ring index,
`RING_MAP[ev.ring] ?? 0` for a name, the number itself otherwise. -/
def resolveRingIdx : RingRef → ℕ
  | RingRef.name s => (RING_MAP s).getD 0
  | RingRef.idx n => n

/-- `calculateLabelPositions` (`js/events.js`): secondary ring index,
`RING_MAP[ev.ring_2] ?? ringIdx` for a name and `ev.ring_2 ?? ringIdx`
otherwise, where `ringIdx` is the already-resolved primary index. -/
def resolveRing2Idx (ringIdx : ℕ) : Option RingRef → ℕ
  | some (RingRef.name s) => (RING_MAP s).getD ringIdx
  | some (RingRef.idx n) => n
  | none => ringIdx

/-- The ring-geometry part of the layout configuration
(`getLayoutConfig` in `js/config.js`; defaults 120 / 380 / 4). -/
structure RingLayout where
  ringInner : ℚ
  ringOuter : ℚ
  ringCount : ℚ
deriving DecidableEq

/-- The radius resolved by `calculateLabelPositions` (`js/events.js`)
for placement mode `"linje"`: `finalLineIdx` is `ringIdx + 1` when the
two indices coincide and `max ringIdx ringIdx2` otherwise, and the
radius is `ringInner + finalLineIdx * ringGap`. -/
def lineRadius (ring : RingRef) (ring2 : Option RingRef)
    (layout : RingLayout) : ℚ :=
  let ringIdx := resolveRingIdx ring
  let ringIdx2 := resolveRing2Idx ringIdx ring2
  let boundaryIdx := max ringIdx ringIdx2
  let finalLineIdx := if ringIdx = ringIdx2 then ringIdx + 1 else boundaryIdx
  let ringGap := (layout.ringOuter - layout.ringInner) / layout.ringCount
  layout.ringInner + (finalLineIdx : ℚ) * ringGap

/-- `hideCarouselView` (`js/events.js`): clears the clicked event and
resets the phase to `0`. -/
def hideCarouselView (s : AppState) : AppState :=
  { s with clickedEvent := none, clickedEventPhase := 0 }

/-- `navigateCarousel` (`js/events.js`): a no-op without a clicked event
or when the clicked identifier is not among the visible events;
otherwise the phase becomes `(phase + direction + 3) % 3`, with `%` the
JavaScript truncating remainder (`Int.tmod`). -/
def navigateCarousel (allVisibleIds : List String) (s : AppState)
    (direction : ℤ) : AppState :=
  match s.clickedEvent with
  | none => s
  | some evId =>
    if evId ∈ allVisibleIds then
      { s with clickedEventPhase :=
          Int.tmod (s.clickedEventPhase + direction + 3) 3 }
    else s

/-- The marker click handler in `renderEvents` (`js/events.js`):
re-clicking the open event closes the carousel, any other click makes
the event the clicked one and opens the carousel at phase `0`. -/
def eventClick (s : AppState) (evId : String) : AppState :=
  if s.clickedEvent = some evId then hideCarouselView s
  else { s with clickedEvent := some evId, clickedEventPhase := 0 }

/-- A label item as handled by `distributeEvenly` (`js/events.js`):
identifier plus the vertical position `ly` it mutates. -/
structure LabelItem where
  id : String
  ly : ℚ
deriving DecidableEq

/-- `distributeEvenly` (`js/events.js`): empty input is returned
untouched; otherwise item `i` receives vertical position
`-(n-1)*spacing/2 + i*spacing`. -/
def distributeEvenly (subset : List LabelItem) (spacing : ℚ) :
    List LabelItem :=
  if subset.length = 0 then subset
  else
    let totalHeight := ((subset.length : ℚ) - 1) * spacing
    let startY := -totalHeight / 2
    subset.mapIdx fun i item => { item with ly := startY + (i : ℚ) * spacing }

/-- Helper for the termination of the angle-normalization loops: a
positive real has a positive natural ceiling, and subtracting one from
the argument strictly decreases the ceiling. -/
theorem natCeil_sub_one_lt {x : ℝ} (hx : 0 < x) : ⌈x - 1⌉₊ < ⌈x⌉₊ := by
  have h1 : 1 ≤ ⌈x⌉₊ := Nat.one_le_ceil_iff.mpr hx
  have h2 : ⌈x - 1⌉₊ ≤ ⌈x⌉₊ - 1 := by
    rw [Nat.ceil_le]
    push_cast [h1]
    have := Nat.le_ceil x
    linarith
  omega

/-- The first normalization loop of `calculateElbow` (`js/events.js`):
`while (angleDiff > Math.PI) angleDiff -= 2 * Math.PI`. -/
noncomputable def wrapDown (θ : ℝ) : ℝ :=
  if h : θ > Real.pi then wrapDown (θ - 2 * Real.pi) else θ
termination_by ⌈(θ - Real.pi) / (2 * Real.pi)⌉₊
decreasing_by
  have hpi : (0 : ℝ) < 2 * Real.pi := by positivity
  have harg : (θ - 2 * Real.pi - Real.pi) / (2 * Real.pi) =
      (θ - Real.pi) / (2 * Real.pi) - 1 := by
    field_simp
    ring
  rw [harg]
  exact natCeil_sub_one_lt (div_pos (by linarith) hpi)

/-- The second normalization loop of `calculateElbow` (`js/events.js`):
`while (angleDiff < -Math.PI) angleDiff += 2 * Math.PI`. -/
noncomputable def wrapUp (θ : ℝ) : ℝ :=
  if h : θ < -Real.pi then wrapUp (θ + 2 * Real.pi) else θ
termination_by ⌈(-Real.pi - θ) / (2 * Real.pi)⌉₊
decreasing_by
  have hpi : (0 : ℝ) < 2 * Real.pi := by positivity
  have harg : (-Real.pi - (θ + 2 * Real.pi)) / (2 * Real.pi) =
      (-Real.pi - θ) / (2 * Real.pi) - 1 := by
    field_simp
    ring
  rw [harg]
  exact natCeil_sub_one_lt (div_pos (by linarith) hpi)

/-- The shortest-signed-difference normalization of `calculateElbow`
(`js/events.js`): the subtracting loop followed by the adding loop. -/
noncomputable def normalizeAngleDiff (θ : ℝ) : ℝ :=
  wrapUp (wrapDown θ)

/-- The connector-geometry part of the layout configuration
(`getLayoutConfig` in `js/config.js`). -/
structure ElbowLayout where
  connectorElbowRadius : ℝ
  jd_connectorCurveFactor : ℝ
  maso_connectorCurveFactor : ℝ
  fman_connectorCurveFactor : ℝ
  jj_connectorCurveFactor : ℝ

/-- The per-season curve factor selection of `calculateElbow`
(`js/events.js`), keyed by the zero-based event month. -/
noncomputable def connectorCurveFactor (layout : ElbowLayout)
    (eventMonth : ℕ) : ℝ :=
  if eventMonth = 0 ∨ eventMonth = 11 then layout.jd_connectorCurveFactor
  else if eventMonth = 2 ∨ eventMonth = 3 ∨ eventMonth = 8 ∨ eventMonth = 9
    then layout.maso_connectorCurveFactor
  else if eventMonth = 1 ∨ eventMonth = 4 ∨ eventMonth = 7 ∨ eventMonth = 10
    then layout.fman_connectorCurveFactor
  else layout.jj_connectorCurveFactor

/-- The event data `calculateElbow` reads: marker position `(x, y)`,
radial angle `a`, and the zero-based month of the event date. -/
structure ElbowEvent where
  x : ℝ
  y : ℝ
  a : ℝ
  month : ℕ

/-- Quadratic coefficient `a_coef` of `calculateElbow`
(`js/events.js`): the squared length of the marker-to-anchor segment. -/
noncomputable def elbowACoef (ev : ElbowEvent) (lineEndX lineEndY : ℝ) : ℝ :=
  (lineEndX - ev.x) * (lineEndX - ev.x) +
    (lineEndY - ev.y) * (lineEndY - ev.y)

/-- Quadratic coefficient `b_coef` of `calculateElbow`
(`js/events.js`). -/
noncomputable def elbowBCoef (ev : ElbowEvent) (lineEndX lineEndY : ℝ) : ℝ :=
  2 * (ev.x * (lineEndX - ev.x) + ev.y * (lineEndY - ev.y))

/-- Quadratic coefficient `c_coef` of `calculateElbow`
(`js/events.js`). -/
noncomputable def elbowCCoef (ev : ElbowEvent) (elbowRadius : ℝ) : ℝ :=
  ev.x * ev.x + ev.y * ev.y - elbowRadius * elbowRadius

/-- The discriminant `b_coef^2 - 4*a_coef*c_coef` of `calculateElbow`
(`js/events.js`). -/
noncomputable def elbowDiscriminant (ev : ElbowEvent)
    (lineEndX lineEndY elbowRadius : ℝ) : ℝ :=
  elbowBCoef ev lineEndX lineEndY * elbowBCoef ev lineEndX lineEndY -
    4 * elbowACoef ev lineEndX lineEndY * elbowCCoef ev elbowRadius

/-- The straight-line angle of `calculateElbow` (`js/events.js`):
initialized to the marker's radial angle, replaced by the `atan2` of
the circle/line intersection only when the discriminant is nonnegative
and the segment has nonzero squared length; `bestT` prefers a root in
`(0, 1)` (first `t1`, then `t2`) and otherwise the root closer to
`0.5`. `atan2(y, x)` is embedded as the complex argument of
`x + y*I`. -/
noncomputable def straightLineAngle (ev : ElbowEvent)
    (lineEndX lineEndY elbowRadius : ℝ) : ℝ :=
  let dx := lineEndX - ev.x
  let dy := lineEndY - ev.y
  if elbowDiscriminant ev lineEndX lineEndY elbowRadius ≥ 0 ∧
      elbowACoef ev lineEndX lineEndY ≠ 0 then
    let sqrtDisc :=
      Real.sqrt (elbowDiscriminant ev lineEndX lineEndY elbowRadius)
    let t1 := (-(elbowBCoef ev lineEndX lineEndY) - sqrtDisc) /
      (2 * elbowACoef ev lineEndX lineEndY)
    let t2 := (-(elbowBCoef ev lineEndX lineEndY) + sqrtDisc) /
      (2 * elbowACoef ev lineEndX lineEndY)
    let bestT :=
      if 0 < t1 ∧ t1 < 1 then t1
      else if 0 < t2 ∧ t2 < 1 then t2
      else if |t1 - 1 / 2| < |t2 - 1 / 2| then t1 else t2
    Complex.arg ⟨ev.x + bestT * dx, ev.y + bestT * dy⟩
  else ev.a

/-- The interpolated elbow angle of `calculateElbow` (`js/events.js`):
`straightLineAngle + normalizedDifference * curveFactor`. -/
noncomputable def calculateElbowAngle (ev : ElbowEvent)
    (lineEndX lineEndY : ℝ) (layout : ElbowLayout) : ℝ :=
  let cf := connectorCurveFactor layout ev.month
  let sla := straightLineAngle ev lineEndX lineEndY
    layout.connectorElbowRadius
  let angleDiff := normalizeAngleDiff (ev.a - sla)
  sla + angleDiff * cf

/-- The elbow point returned by `calculateElbow` (`js/events.js`): the
interpolated angle projected onto the elbow-radius circle. -/
noncomputable def calculateElbow (ev : ElbowEvent)
    (lineEndX lineEndY : ℝ) (layout : ElbowLayout) : ℝ × ℝ :=
  let θ := calculateElbowAngle ev lineEndX lineEndY layout
  (layout.connectorElbowRadius * Real.cos θ,
   layout.connectorElbowRadius * Real.sin θ)

theorem selectionInvariant_createState (f : SegmentFilters) :
    SelectionInvariant (createState f) := by
  simp [SelectionInvariant, createState]

theorem selectionInvariant_applySelOp (s : AppState) (op : SelOp) :
    SelectionInvariant (applySelOp s op) := by
  cases op <;>
    simp only [applySelOp, toggleMonth, toggleRing, togglePeriod,
      resetSelections] <;>
    [skip; skip; skip; simp [SelectionInvariant]] <;>
    (split_ifs with h <;> simp_all [SelectionInvariant])

/-- C5: the click-toggle on ring index `i` clears the clicked-months and
clicked-periods sets, toggles membership of `i` in the clicked-rings
set, and sets the mode to the ring axis unless the resulting clicked-
rings set is empty, in which case the mode is `null`; the analogous
property holds for the month and period toggles with the axes
permuted. -/
theorem C5_click_toggle_clears_other_axes (s : AppState) (i : ℕ) :
    ((toggleRing s i).clickedMonths = ∅ ∧
     (toggleRing s i).clickedPeriods = ∅ ∧
     (toggleRing s i).clickedRings = toggleMember i s.clickedRings ∧
     (toggleRing s i).selectionMode =
       (if toggleMember i s.clickedRings = ∅ then none
        else some SelectionMode.ring)) ∧
    ((toggleMonth s i).clickedRings = ∅ ∧
     (toggleMonth s i).clickedPeriods = ∅ ∧
     (toggleMonth s i).clickedMonths = toggleMember i s.clickedMonths ∧
     (toggleMonth s i).selectionMode =
       (if toggleMember i s.clickedMonths = ∅ then none
        else some SelectionMode.month)) ∧
    ((togglePeriod s i).clickedMonths = ∅ ∧
     (togglePeriod s i).clickedRings = ∅ ∧
     (togglePeriod s i).clickedPeriods = toggleMember i s.clickedPeriods ∧
     (togglePeriod s i).selectionMode =
       (if toggleMember i s.clickedPeriods = ∅ then none
        else some SelectionMode.period)) := by
  refine ⟨?_, ?_, ?_⟩ <;>
    simp only [toggleRing, toggleMonth, togglePeriod] <;>
    split_ifs <;> simp_all

/-- C9: starting from the initial state, every sequence of toggle and
reset operations preserves the invariant that at most one click-set is
non-empty and that `selectionMode` is `null` iff all are empty and
otherwise names the axis of the unique non-empty set. -/
theorem C9_selection_invariant_reachable (f : SegmentFilters)
    (ops : List SelOp) :
    SelectionInvariant (applySelOps (createState f) ops) := by
  rcases ops with _ | ⟨op, rest⟩
  · exact selectionInvariant_createState f
  · have key : ∀ (rest : List SelOp) (t : AppState),
        SelectionInvariant t →
        SelectionInvariant (List.foldl applySelOp t rest) := by
      intro rest
      induction rest with
      | nil => intro t ht; exact ht
      | cons o os ih =>
        intro t _
        exact ih (applySelOp t o) (selectionInvariant_applySelOp t o)
    exact key rest (applySelOp (createState f) op)
      (selectionInvariant_applySelOp (createState f) op)

/-- C10: the facet filter keeps an event iff some facet flag is exactly
`true` with the matching filter enabled; an event whose flags are all
false or absent is excluded no matter which filters are enabled. -/
theorem C10_facet_filter_membership (state : AppState)
    (evs : List FacetEvent) (ev : FacetEvent) :
    (ev ∈ getFilteredEvents state evs ↔
      ev ∈ evs ∧
        ((state.segmentFilters.verksamhet = true ∧ ev.verksamhet = some true) ∨
         (state.segmentFilters.ekonomi = true ∧ ev.ekonomi = some true) ∨
         (state.segmentFilters.kvalitet = true ∧ ev.kvalitet = some true))) ∧
    (ev.verksamhet ≠ some true → ev.ekonomi ≠ some true →
      ev.kvalitet ≠ some true → ev ∉ getFilteredEvents state evs) := by
  constructor
  · simp [getFilteredEvents, List.mem_filter, and_assoc, or_assoc]
  · intro h1 h2 h3
    simp [getFilteredEvents, List.mem_filter, h1, h2, h3]

/-- Witness for C10 at a concrete input: with every filter enabled, an
event whose facet flags are `false`, absent and `false` is excluded. -/
theorem C10_facet_filter_membership_witness :
    (⟨"ev1", some false, none, some false⟩ : FacetEvent) ∉
      getFilteredEvents
        (createState ⟨true, true, true⟩)
        [⟨"ev1", some false, none, some false⟩] :=
  (C10_facet_filter_membership (createState ⟨true, true, true⟩)
      [⟨"ev1", some false, none, some false⟩]
      ⟨"ev1", some false, none, some false⟩).2
    (by simp) (by simp) (by simp)

/-- Counterexample to C4: the year 2020 satisfies the 53-ISO-week
criterion (leap year whose January 1 is a Wednesday), yet the code's
week count for 2020 is 52, so the claimed equivalence fails. -/
theorem C4_counterexample_2020 :
    spansFiftyThreeIsoWeeks 2020 = true ∧
    totalWeeksInYear 2020 = 52 ∧
    ¬(totalWeeksInYear 2020 = 53 ↔ spansFiftyThreeIsoWeeks 2020 = true) := by
  refine ⟨by decide, by decide, ?_⟩
  intro h
  have := h.mpr (by decide)
  simp [totalWeeksInYear] at this

/-- C4 as amended: the week count used by the week ring and the
period-to-week computation is 53 exactly for the hard-coded year 2026
(a year that does satisfy the 53-ISO-week criterion), and 52 for every
other year, including years such as 2020 that also span 53 ISO
weeks. -/
theorem C4_total_weeks_hardcoded (year : ℤ) :
    (totalWeeksInYear year = 53 ↔ year = 2026) ∧
    spansFiftyThreeIsoWeeks 2026 = true ∧
    spansFiftyThreeIsoWeeks 2020 = true ∧
    totalWeeksInYear 2020 = 52 := by
  refine ⟨?_, by decide, by decide, by decide⟩
  unfold totalWeeksInYear
  split_ifs with h <;> simp [h]

/-- Counterexample to C2: for dividers `[1, 14, 27, 40]` in the 52-week
year 2025, the active-week set of period index 3 does not contain
week 1 — the wrapping half-open interval `[40, 1)` contains no week
below its end divider, contrary to the claim. -/
theorem C2_counterexample_week_one :
    (1 : ℕ) ∉ getActiveWeeksFromPeriods {3} 2025 [1, 14, 27, 40] := by
  decide

/-- C2 as amended: for dividers `[1, 14, 27, 40]` in a 52-week year,
period index 3 contains week 52 but neither week 1 nor week 14; in
general, within weeks `1 .. totalWeeks`, membership in a wrapping
period (`ew ≤ sw`) is `w ≥ sw ∨ w < ew` and in a non-wrapping period
`w ≥ sw ∧ w < ew`. -/
theorem C2_period_week_membership (year : ℤ) (dividers : List ℕ)
    (idx sw ew w : ℕ)
    (h1 : dividers.get? idx = some sw)
    (h2 : dividers.get? ((idx + 1) % dividers.length) = some ew) :
    ((52 : ℕ) ∈ getActiveWeeksFromPeriods {3} 2025 [1, 14, 27, 40] ∧
     (1 : ℕ) ∉ getActiveWeeksFromPeriods {3} 2025 [1, 14, 27, 40] ∧
     (14 : ℕ) ∉ getActiveWeeksFromPeriods {3} 2025 [1, 14, 27, 40]) ∧
    (w ∈ getActiveWeeksFromPeriods {idx} year dividers ↔
      (1 ≤ w ∧ w ≤ totalWeeksInYear year ∧
        (if ew ≤ sw then (w ≥ sw ∨ w < ew) else (w ≥ sw ∧ w < ew)))) := by
  constructor
  · exact ⟨by decide, by decide, by decide⟩
  · simp only [getActiveWeeksFromPeriods, Finset.mem_biUnion,
      Finset.mem_singleton, exists_eq_left]
    rw [h1, h2]
    simp [Finset.mem_filter, Finset.mem_Icc, and_assoc]

/-- Witness for C2 at a concrete input: period index 0 of the same
divider list, tested at week 5. -/
theorem C2_period_week_membership_witness :
    ((5 : ℕ) ∈ getActiveWeeksFromPeriods {0} 2025 [1, 14, 27, 40] ↔
      (1 ≤ 5 ∧ 5 ≤ totalWeeksInYear 2025 ∧
        (if (14 : ℕ) ≤ 1 then (5 ≥ 1 ∨ 5 < 14) else (5 ≥ 1 ∧ 5 < 14)))) :=
  (C2_period_week_membership 2025 [1, 14, 27, 40] 0 1 14 5 rfl rfl).2

theorem getActiveSets_hasAnyActive (s : AppState) :
    (getActiveSets s).hasAnyActive =
      ((getActiveSets s).hasMonthActive || (getActiveSets s).hasRingActive ||
        (getActiveSets s).hasPeriodActive) := rfl

/-- Counterexample to C3: in the state whose only activation is the
clicked period 0 (period-only activation), every ring segment is
marked dimmed, because the ring-segment dimming condition
`hasAnyActive && !isActive` has no period-axis exception. -/
theorem C3_counterexample_ring_segment_dimmed :
    (getActiveSets (⟨⟨true, true, true⟩, ∅, none, ∅, none, {0}, none,
        none, none, 0, none⟩ : AppState)).hasMonthActive = false ∧
    (getActiveSets (⟨⟨true, true, true⟩, ∅, none, ∅, none, {0}, none,
        none, none, 0, none⟩ : AppState)).hasRingActive = false ∧
    (getActiveSets (⟨⟨true, true, true⟩, ∅, none, ∅, none, {0}, none,
        none, none, 0, none⟩ : AppState)).hasPeriodActive = true ∧
    ringSegmentIsDimmed
      (getActiveSets (⟨⟨true, true, true⟩, ∅, none, ∅, none, {0}, none,
        none, none, 0, none⟩ : AppState)) 0 0 = true := by
  decide

/-- C3 as amended: under period-only activation, month arcs and month
labels are never dimmed, but every ring segment is dimmed; event
markers and period segments are dimmed exactly when they are not
active. -/
theorem C3_period_only_dimming (s : AppState) (year : ℤ)
    (dividers : List ℕ) (m mm r i week : ℕ) (ring : String)
    (ring2 : Option String)
    (hm : (getActiveSets s).hasMonthActive = false)
    (hr : (getActiveSets s).hasRingActive = false)
    (hp : (getActiveSets s).hasPeriodActive = true) :
    monthArcIsDimmed (getActiveSets s) m = false ∧
    monthLabelIsDimmed (getActiveSets s) m = false ∧
    ringSegmentIsDimmed (getActiveSets s) mm r = true ∧
    (eventMarkerIsDimmed (getActiveSets s)
        (getActiveWeeksFromPeriods (getActiveSets s).activePeriods
          year dividers) m ring ring2 week =
      !(eventMarkerIsActive (getActiveSets s)
        (getActiveWeeksFromPeriods (getActiveSets s).activePeriods
          year dividers) m ring ring2 week)) ∧
    (periodSegmentIsDimmed (getActiveSets s) i =
      !(periodSegmentIsActive (getActiveSets s) i)) := by
  have hAny : (getActiveSets s).hasAnyActive = true := by
    rw [getActiveSets_hasAnyActive, hm, hr, hp]
    rfl
  refine ⟨?_, ?_, ?_, ?_, ?_⟩ <;>
    simp [monthArcIsDimmed, monthLabelIsDimmed, ringSegmentIsDimmed,
      ringSegmentIsActive, eventMarkerIsDimmed, periodSegmentIsDimmed,
      hm, hr, hp, hAny]

/-- Witness for C3 at a concrete input: the period-only state clicking
period 0, with dividers `[1, 14, 27, 40]` in year 2025, checked on
month arc 1, ring segment (month 3, ring 2), an event marker in month 1
and week 40 on the "planering" ring, and period segment 0. -/
theorem C3_period_only_dimming_witness :
    monthArcIsDimmed
      (getActiveSets (⟨⟨true, true, true⟩, ∅, none, ∅, none, {0}, none,
        none, none, 0, none⟩ : AppState)) 1 = false ∧
    monthLabelIsDimmed
      (getActiveSets (⟨⟨true, true, true⟩, ∅, none, ∅, none, {0}, none,
        none, none, 0, none⟩ : AppState)) 1 = false ∧
    ringSegmentIsDimmed
      (getActiveSets (⟨⟨true, true, true⟩, ∅, none, ∅, none, {0}, none,
        none, none, 0, none⟩ : AppState)) 3 2 = true ∧
    (eventMarkerIsDimmed
        (getActiveSets (⟨⟨true, true, true⟩, ∅, none, ∅, none, {0}, none,
          none, none, 0, none⟩ : AppState))
        (getActiveWeeksFromPeriods
          (getActiveSets (⟨⟨true, true, true⟩, ∅, none, ∅, none, {0}, none,
            none, none, 0, none⟩ : AppState)).activePeriods
          2025 [1, 14, 27, 40]) 1 "planering" none 40 =
      !(eventMarkerIsActive
        (getActiveSets (⟨⟨true, true, true⟩, ∅, none, ∅, none, {0}, none,
          none, none, 0, none⟩ : AppState))
        (getActiveWeeksFromPeriods
          (getActiveSets (⟨⟨true, true, true⟩, ∅, none, ∅, none, {0}, none,
            none, none, 0, none⟩ : AppState)).activePeriods
          2025 [1, 14, 27, 40]) 1 "planering" none 40)) ∧
    (periodSegmentIsDimmed
        (getActiveSets (⟨⟨true, true, true⟩, ∅, none, ∅, none, {0}, none,
          none, none, 0, none⟩ : AppState)) 0 =
      !(periodSegmentIsActive
        (getActiveSets (⟨⟨true, true, true⟩, ∅, none, ∅, none, {0}, none,
          none, none, 0, none⟩ : AppState)) 0)) :=
  C3_period_only_dimming
    (⟨⟨true, true, true⟩, ∅, none, ∅, none, {0}, none,
      none, none, 0, none⟩ : AppState)
    2025 [1, 14, 27, 40] 1 3 2 0 40 "planering" none
    (by decide) (by decide) (by decide)

theorem resolveRing2Idx_self (r : RingRef) :
    resolveRing2Idx (resolveRingIdx r) (some r) = resolveRingIdx r := by
  cases r with
  | name s => cases h : RING_MAP s <;>
      simp [resolveRingIdx, resolveRing2Idx, h]
  | idx n => rfl

/-- Counterexample to C1: with the default layout (inner 120, outer 380,
4 rings, gap 65), an event with the two distinct rings
"langtidsplanering" (index 0) and "planering" (index 1) resolves to
`120 + 1*65 = 185`, the inner — not outer — edge of the higher-indexed
ring (its outer edge would be 250), and an event with
`ring = ring_2 = "planering"` resolves to 250, so the two do not
coincide. -/
theorem C1_counterexample_line_radius :
    lineRadius (RingRef.name "langtidsplanering")
      (some (RingRef.name "planering")) ⟨120, 380, 4⟩ = 185 ∧
    (185 : ℚ) ≠ 120 + ((1 : ℚ) + 1) * ((380 - 120) / 4) ∧
    lineRadius (RingRef.name "planering")
      (some (RingRef.name "planering")) ⟨120, 380, 4⟩ = 250 ∧
    lineRadius (RingRef.name "planering")
        (some (RingRef.name "planering")) ⟨120, 380, 4⟩ ≠
      lineRadius (RingRef.name "langtidsplanering")
        (some (RingRef.name "planering")) ⟨120, 380, 4⟩ := by
  have e1 : resolveRingIdx (RingRef.name "langtidsplanering") = 0 := rfl
  have e2 : resolveRingIdx (RingRef.name "planering") = 1 := rfl
  have e3 : resolveRing2Idx 0 (some (RingRef.name "planering")) = 1 := rfl
  have e4 : resolveRing2Idx 1 (some (RingRef.name "planering")) = 1 := rfl
  refine ⟨?_, by norm_num, ?_, ?_⟩
  · simp [lineRadius, e1, e3]
    norm_num
  · simp [lineRadius, e2, e4]
    norm_num
  · simp [lineRadius, e1, e2, e3, e4]
    norm_num

/-- C1 as amended: for placement mode "line", when the two resolved
ring indices coincide the radius is the outer edge of that ring,
`inner + (index+1)*gap`; when they are distinct it is
`inner + max(index, index2)*gap`, the inner edge of the higher-indexed
ring. Consequently `ring = ring_2 = "planering"` resolves to the same
boundary as a pair of distinct rings whose higher index is 2, such as
"planering" with "genomforande_och_uppfoljning". -/
theorem C1_line_radius_boundary (L : RingLayout) (r1 r2 : RingRef) :
    (lineRadius r1 (some r1) L =
      L.ringInner + ((resolveRingIdx r1 + 1 : ℕ) : ℚ) *
        ((L.ringOuter - L.ringInner) / L.ringCount)) ∧
    (resolveRingIdx r1 ≠ resolveRing2Idx (resolveRingIdx r1) (some r2) →
      lineRadius r1 (some r2) L =
        L.ringInner + ((max (resolveRingIdx r1)
            (resolveRing2Idx (resolveRingIdx r1) (some r2)) : ℕ) : ℚ) *
          ((L.ringOuter - L.ringInner) / L.ringCount)) ∧
    (lineRadius (RingRef.name "planering")
        (some (RingRef.name "planering")) L =
      lineRadius (RingRef.name "planering")
        (some (RingRef.name "genomforande_och_uppfoljning")) L) := by
  refine ⟨?_, ?_, ?_⟩
  · simp [lineRadius, resolveRing2Idx_self]
  · intro h
    simp [lineRadius, if_neg h]
  · have h1 : RING_MAP "planering" = some 1 := by decide
    have h2 : RING_MAP "genomforande_och_uppfoljning" = some 2 := by decide
    simp [lineRadius, resolveRingIdx, resolveRing2Idx, h1, h2]

/-- Witness for C1 at a concrete input: the distinct pair
"langtidsplanering" / "planering" in the default layout. -/
theorem C1_line_radius_boundary_witness :
    lineRadius (RingRef.name "langtidsplanering")
      (some (RingRef.name "planering")) ⟨120, 380, 4⟩ =
      (120 : ℚ) + ((max (resolveRingIdx (RingRef.name "langtidsplanering"))
          (resolveRing2Idx (resolveRingIdx (RingRef.name "langtidsplanering"))
            (some (RingRef.name "planering"))) : ℕ) : ℚ) *
        (((380 : ℚ) - 120) / 4) :=
  (C1_line_radius_boundary ⟨120, 380, 4⟩ (RingRef.name "langtidsplanering")
      (RingRef.name "planering")).2.1 (by decide)

/-- C8: opening the carousel by clicking a not-currently-open event sets
phase 0; every navigation step on a state whose clicked event is among
the visible events sets the phase to `(phase + direction + 3) % 3`; and
from a freshly opened event, three forward advances return the phase
to 0. -/
theorem C8_carousel_phase (s : AppState) (evId : String)
    (allVisibleIds : List String) (d : ℤ) :
    (s.clickedEvent ≠ some evId →
      ((eventClick s evId).clickedEventPhase = 0 ∧
       (eventClick s evId).clickedEvent = some evId)) ∧
    (∀ t : AppState, ∀ tid : String, t.clickedEvent = some tid →
      tid ∈ allVisibleIds →
      (navigateCarousel allVisibleIds t d).clickedEventPhase =
        Int.tmod (t.clickedEventPhase + d + 3) 3) ∧
    (s.clickedEvent ≠ some evId → evId ∈ allVisibleIds →
      (navigateCarousel allVisibleIds (navigateCarousel allVisibleIds
        (navigateCarousel allVisibleIds (eventClick s evId) 1) 1)
        1).clickedEventPhase = 0) := by
  refine ⟨?_, ?_, ?_⟩
  · intro h
    simp [eventClick, h]
  · intro t tid h1 h2
    simp [navigateCarousel, h1, h2]
  · intro h h2
    simp [eventClick, h, navigateCarousel, h2]
    decide

/-- Witness for C8 at a concrete input: opening event `"e1"` from the
initial state and advancing three times lands back on phase 0. -/
theorem C8_carousel_phase_witness :
    (navigateCarousel ["e1"] (navigateCarousel ["e1"]
      (navigateCarousel ["e1"]
        (eventClick (createState ⟨true, true, true⟩) "e1") 1) 1)
      1).clickedEventPhase = 0 :=
  (C8_carousel_phase (createState ⟨true, true, true⟩) "e1" ["e1"] 1).2.2
    (by simp [createState]) (by simp)

theorem sum_range_arith (n : ℕ) (a d : ℚ) :
    ((List.range n).map (fun i : ℕ => a + (i : ℚ) * d)).sum =
      n * a + ((n : ℚ) * ((n : ℚ) - 1)) / 2 * d := by
  induction n with
  | zero => simp
  | succ k ih =>
    rw [List.range_succ, List.map_append, List.sum_append, ih,
      List.map_singleton, List.sum_singleton]
    push_cast
    ring

theorem distributeEvenly_eq_mapIdx (subset : List LabelItem) (spacing : ℚ)
    (hne : subset ≠ []) :
    distributeEvenly subset spacing =
      subset.mapIdx fun i item =>
        { item with ly := -(((subset.length : ℚ) - 1) * spacing) / 2 +
            (i : ℚ) * spacing } := by
  have hlen : subset.length ≠ 0 := by
    simpa [List.length_eq_zero] using hne
  unfold distributeEvenly
  rw [if_neg hlen]

/-- C7: on a non-empty list, `distributeEvenly` assigns vertical
positions forming an arithmetic sequence with common difference
`spacing` — item `i` receives `-(n-1)*spacing/2 + i*spacing` — whose
mean is 0, while the list length and the order of item identifiers are
unchanged. -/
theorem C7_distribute_evenly_positions (subset : List LabelItem)
    (spacing : ℚ) (hne : subset ≠ []) :
    (distributeEvenly subset spacing).length = subset.length ∧
    (∀ i (h : i < (distributeEvenly subset spacing).length),
      ((distributeEvenly subset spacing).get ⟨i, h⟩).ly =
        -(((subset.length : ℚ) - 1) * spacing) / 2 + (i : ℚ) * spacing) ∧
    (∀ i (h1 : i < (distributeEvenly subset spacing).length)
        (h2 : i + 1 < (distributeEvenly subset spacing).length),
      ((distributeEvenly subset spacing).get ⟨i + 1, h2⟩).ly -
        ((distributeEvenly subset spacing).get ⟨i, h1⟩).ly = spacing) ∧
    (((distributeEvenly subset spacing).map LabelItem.ly).sum /
      (subset.length : ℚ) = 0) ∧
    ((distributeEvenly subset spacing).map LabelItem.id =
      subset.map LabelItem.id) := by
  have hD := distributeEvenly_eq_mapIdx subset spacing hne
  have hlen : (distributeEvenly subset spacing).length = subset.length := by
    rw [hD, List.length_mapIdx]
  have hget : ∀ i (h : i < (distributeEvenly subset spacing).length),
      ((distributeEvenly subset spacing).get ⟨i, h⟩).ly =
        -(((subset.length : ℚ) - 1) * spacing) / 2 + (i : ℚ) * spacing := by
    intro i h
    have hi : i < subset.length := by rw [← hlen]; exact h
    rw [List.get_of_eq hD ⟨i, h⟩]
    exact congrArg LabelItem.ly (List.get_mapIdx subset _ i hi)
  refine ⟨hlen, hget, ?_, ?_, ?_⟩
  · intro i h1 h2
    rw [hget i h1, hget (i + 1) h2]
    push_cast
    ring
  · have hmap : (distributeEvenly subset spacing).map LabelItem.ly =
        (List.range subset.length).map
          (fun i : ℕ => -(((subset.length : ℚ) - 1) * spacing) / 2 +
            (i : ℚ) * spacing) := by
      apply List.ext_get
      · simp [hlen]
      · intro n h1 h2
        have hn : n < (distributeEvenly subset spacing).length := by
          simpa using h1
        have hn2 : n < subset.length := by rw [← hlen]; exact hn
        simp only [List.get_map, List.get_range]
        exact hget n hn
    rw [hmap, sum_range_arith]
    have hz : (subset.length : ℚ) *
          (-(((subset.length : ℚ) - 1) * spacing) / 2) +
        ((subset.length : ℚ) * ((subset.length : ℚ) - 1)) / 2 * spacing
          = 0 := by ring
    rw [hz, zero_div]
  · rw [hD]
    apply List.ext_get
    · simp
    · intro n h1 h2
      have hn2 : n < subset.length := by simpa using h2
      simp only [List.get_map]
      rw [List.get_mapIdx subset _ n hn2]

/-- Witness for C7 at a concrete input: three labels with spacing 40
keep their length and identifier order and average to zero. -/
theorem C7_distribute_evenly_positions_witness :
    (distributeEvenly [⟨"a", 5⟩, ⟨"b", -3⟩, ⟨"c", 0⟩] 40).length =
      ([⟨"a", 5⟩, ⟨"b", -3⟩, ⟨"c", 0⟩] : List LabelItem).length ∧
    (((distributeEvenly [⟨"a", 5⟩, ⟨"b", -3⟩, ⟨"c", 0⟩] 40).map
        LabelItem.ly).sum /
      ((([⟨"a", 5⟩, ⟨"b", -3⟩, ⟨"c", 0⟩] : List LabelItem).length : ℚ))
        = 0) ∧
    ((distributeEvenly [⟨"a", 5⟩, ⟨"b", -3⟩, ⟨"c", 0⟩] 40).map
        LabelItem.id =
      ([⟨"a", 5⟩, ⟨"b", -3⟩, ⟨"c", 0⟩] : List LabelItem).map
        LabelItem.id) :=
  ⟨(C7_distribute_evenly_positions [⟨"a", 5⟩, ⟨"b", -3⟩, ⟨"c", 0⟩] 40
      (by simp)).1,
   (C7_distribute_evenly_positions [⟨"a", 5⟩, ⟨"b", -3⟩, ⟨"c", 0⟩] 40
      (by simp)).2.2.2.1,
   (C7_distribute_evenly_positions [⟨"a", 5⟩, ⟨"b", -3⟩, ⟨"c", 0⟩] 40
      (by simp)).2.2.2.2⟩

theorem wrapDown_zero : wrapDown 0 = 0 := by
  unfold wrapDown
  rw [dif_neg (not_lt.mpr Real.pi_nonneg)]

theorem wrapUp_zero : wrapUp 0 = 0 := by
  unfold wrapUp
  rw [dif_neg (not_lt.mpr (by linarith [Real.pi_pos] : -Real.pi ≤ 0))]

theorem normalizeAngleDiff_zero : normalizeAngleDiff 0 = 0 := by
  unfold normalizeAngleDiff
  rw [wrapDown_zero, wrapUp_zero]

/-- C6: the elbow computation is total, and in the degenerate cases —
negative discriminant or zero-length marker-to-anchor segment — the
straight-line angle falls back to the marker's radial angle, so for
every elbow radius and curve factor the resulting elbow angle is the
marker's radial angle and the elbow point lies at that angle on the
elbow circle. -/
theorem C6_elbow_degenerate_fallback (ev : ElbowEvent)
    (lineEndX lineEndY : ℝ) (layout : ElbowLayout)
    (h : elbowDiscriminant ev lineEndX lineEndY
        layout.connectorElbowRadius < 0 ∨
      elbowACoef ev lineEndX lineEndY = 0) :
    calculateElbowAngle ev lineEndX lineEndY layout = ev.a ∧
    calculateElbow ev lineEndX lineEndY layout =
      (layout.connectorElbowRadius * Real.cos ev.a,
       layout.connectorElbowRadius * Real.sin ev.a) := by
  have hC : ¬(elbowDiscriminant ev lineEndX lineEndY
      layout.connectorElbowRadius ≥ 0 ∧
      elbowACoef ev lineEndX lineEndY ≠ 0) := by
    rcases h with h | h
    · intro hc
      linarith [hc.1]
    · intro hc
      exact hc.2 h
  have hsla : straightLineAngle ev lineEndX lineEndY
      layout.connectorElbowRadius = ev.a := by
    simp only [straightLineAngle]
    rw [if_neg hC]
  have hangle : calculateElbowAngle ev lineEndX lineEndY layout = ev.a := by
    simp only [calculateElbowAngle, hsla, sub_self,
      normalizeAngleDiff_zero, zero_mul, add_zero]
  exact ⟨hangle, by simp only [calculateElbow, hangle]⟩

/-- Witness for C6 at a concrete input: a marker at `(1, 0)` whose line
anchor coincides with it (zero-length segment), radial angle `7/10`. -/
theorem C6_elbow_degenerate_fallback_witness :
    calculateElbowAngle ⟨1, 0, 7 / 10, 5⟩ 1 0 ⟨480, 1, 1, 1, 1⟩ =
      (7 / 10 : ℝ) :=
  (C6_elbow_degenerate_fallback ⟨1, 0, 7 / 10, 5⟩ 1 0 ⟨480, 1, 1, 1, 1⟩
    (Or.inr (by simp [elbowACoef]))).1

end Verksamhetscykel
